import Mathlib

/-!
# Shallow embedding of the KLEE mock-kernel shim layer

This file embeds the C shim functions of the repository:

* `src/rust/stubs.c` — `printk`, `alloc_chrdev_region`,
  `unregister_chrdev_region`, `cdev_init`, `cdev_add`, `cdev_del`;
* `src/unnamed/part_000` and `src/unnamed/part_001` — `printk` and the
  `rust_helper_*` entry points (`copy_from_user`, `copy_to_user`,
  `init_wait`, `kmap`, `kunmap`, `signal_pending`, `alloc_pages`,
  `spin_lock_init`, `spin_lock`, `spin_unlock`, `current_pid`).

Every one of these C functions has an empty body or the body `return 0;`:
none of them dereferences, reads or writes any pointer argument, and none
touches any global. To make that observable we thread an explicit,
caller-visible process state `ShimState` through each call. The state
carries the byte memory and the ghost bookkeeping that the specification's
contracts talk about (regions, initialized devices, held locks, mapped
pages, recorded usage violations); since the C bodies contain no statements
besides `return 0;`, each embedded function returns the state unchanged
together with the literal result the C code returns. Pointers are modelled
as natural-number addresses; `unsigned long` results as `Nat`; `int`
results as `Int`. The external `klee_print_expr` call inside `printk` is a
pure observation point of the symbolic-execution engine with no effect on
process state, so it contributes nothing to the state transformer.
-/

/-- Byte-addressed process memory: an address yields the byte stored there. -/
def Mem : Type := Nat → Nat

/-- Bookkeeping record for a reserved device-number region, the
`DeviceRegion` entity of the specification's data model. The C code keeps
no such record; it appears here as ghost state so that contracts phrased in
terms of allocated regions can be stated and checked against the code. -/
structure DeviceRegion where
  base : Nat
  count : Nat
  allocated : Bool
deriving DecidableEq

/-- The caller-visible process state threaded through every shim call:
the byte memory plus the ghost bookkeeping the specification's contracts
refer to (allocated regions, initialized / added device handles, held
locks, mapped pages, and a count of flagged usage violations such as
detected deadlocks). The C stubs never read or write any of it. -/
structure ShimState where
  mem : Mem
  regions : List DeviceRegion
  initializedDevs : List Nat
  addedDevs : List Nat
  heldLocks : List Nat
  mappedPages : List Nat
  usageViolations : Nat

/-- A single variadic argument handed to `printk`: the driver under test may
pass integers or pointers in any mixture. The C body ignores them all. -/
inductive PrintkArg where
  | intArg (i : Int)
  | ptrArg (p : Nat)
deriving DecidableEq

/-- Embeds `int printk(const char *fmt, ...)` (src/rust/stubs.c lines 5–12,
identical copies in src/unnamed/part_000 and part_001): the body forwards
`fmt` to the engine's external expression printer and executes
`return 0;`. It writes no memory and consults no state. -/
def printk (st : ShimState) (fmt : Nat) (args : List PrintkArg) :
    ShimState × Int :=
  (st, 0)

/-- Embeds `int alloc_chrdev_region(dev_t *dev, unsigned baseminor,
unsigned count, const char *name)` (src/rust/stubs.c lines 14–18): the body
is `return 0;`. It does not write through `dev`, records no region, and
performs no overlap check. -/
def alloc_chrdev_region (st : ShimState) (dev baseminor count name : Nat) :
    ShimState × Int :=
  (st, 0)

/-- Embeds `void unregister_chrdev_region(dev_t from, unsigned count)`
(src/rust/stubs.c lines 21–23): empty body. -/
def unregister_chrdev_region (st : ShimState) (from_ count : Nat) :
    ShimState :=
  st

/-- Embeds `void cdev_init(struct cdev *cdev, const struct file_operations
*fops)` (src/rust/stubs.c lines 25–27): empty body; it does not mark the
handle initialized. -/
def cdev_init (st : ShimState) (cdev fops : Nat) : ShimState :=
  st

/-- Embeds `int cdev_add(struct cdev *p, dev_t dev, unsigned count)`
(src/rust/stubs.c lines 31–38): the body is `return 0;` with no check of
initialization, region allocation or count. -/
def cdev_add (st : ShimState) (p dev count : Nat) : ShimState × Int :=
  (st, 0)

/-- Embeds `void cdev_del(struct cdev *p)` (src/rust/stubs.c lines 40–42):
empty body. -/
def cdev_del (st : ShimState) (p : Nat) : ShimState :=
  st

/-- Embeds `unsigned long rust_helper_copy_from_user(void *to, const void
__user *from, unsigned long n)` (src/unnamed/part_000 lines 16–19, same in
part_001): the body is `return 0;`. No byte is transferred and no memory
is written. -/
def rust_helper_copy_from_user (st : ShimState) (to_ from_ n : Nat) :
    ShimState × Nat :=
  (st, 0)

/-- Embeds `unsigned long rust_helper_copy_to_user(void __user *to, const
void *from, unsigned long n)` (src/unnamed/part_000 lines 21–24, same in
part_001): the body is `return 0;`. No byte is transferred and no memory
is written. -/
def rust_helper_copy_to_user (st : ShimState) (to_ from_ n : Nat) :
    ShimState × Nat :=
  (st, 0)

/-- Embeds `void rust_helper_init_wait(struct wait_queue_entry *wq_entry)`
(src/unnamed/part_000 lines 26–28, same in part_001): empty body. -/
def rust_helper_init_wait (st : ShimState) (wq_entry : Nat) : ShimState :=
  st

/-- Embeds `void *rust_helper_kmap(struct page *page)` (src/unnamed/part_000
lines 30–33): the body is `return 0;`, i.e. it always yields the null
address, the invalid handle. -/
def rust_helper_kmap (st : ShimState) (page : Nat) : ShimState × Nat :=
  (st, 0)

/-- Embeds `void rust_helper_kunmap(struct page *page)`
(src/unnamed/part_000 lines 35–37, same in part_001): empty body. -/
def rust_helper_kunmap (st : ShimState) (page : Nat) : ShimState :=
  st

/-- Embeds `int rust_helper_signal_pending(void)` (src/unnamed/part_000
lines 39–42, same in part_001): the body is `return 0;`. -/
def rust_helper_signal_pending (st : ShimState) : ShimState × Int :=
  (st, 0)

/-- Embeds `struct page *rust_helper_alloc_pages(gfp_t gfp_mask, unsigned
int order)` (src/unnamed/part_000 lines 44–47): the body is `return 0;`,
i.e. it always yields the null page. -/
def rust_helper_alloc_pages (st : ShimState) (gfp_mask order : Nat) :
    ShimState × Nat :=
  (st, 0)

/-- Embeds `void rust_helper_spin_lock_init(spinlock_t *lock, const char
*name, struct lock_class_key *key)` (src/unnamed/part_000 lines 49–52):
empty body. -/
def rust_helper_spin_lock_init (st : ShimState) (lock name key : Nat) :
    ShimState :=
  st

/-- Embeds `void rust_helper_spin_lock(spinlock_t *lock)`
(src/unnamed/part_000 lines 54–56): empty body; it records neither the
acquisition nor any usage violation. -/
def rust_helper_spin_lock (st : ShimState) (lock : Nat) : ShimState :=
  st

/-- Embeds `void rust_helper_spin_unlock(spinlock_t *lock)`
(src/unnamed/part_000 lines 58–60): empty body. -/
def rust_helper_spin_unlock (st : ShimState) (lock : Nat) : ShimState :=
  st

/-- Embeds `int rust_helper_current_pid(void)` (src/unnamed/part_000
lines 62–65): the body is `return 0;`. -/
def rust_helper_current_pid (st : ShimState) : ShimState × Int :=
  (st, 0)

/-- The overlap condition stated by the specification for region
allocation: an already-allocated region whose device-number range meets the
requested range, partial overlap included. Used only to state contracts;
the C code computes nothing of the kind. -/
def overlapsRange (r : DeviceRegion) (base count : Nat) : Bool :=
  r.allocated && decide (base < r.base + r.count) &&
    decide (r.base < base + count)

/-- The all-zero memory. -/
def zeroMem : Mem := fun _ => 0

/-- A concrete starting state: zero memory, no regions, no initialized or
added devices, no held locks, no mapped pages, no recorded violations. -/
def st0 : ShimState := ⟨zeroMem, [], [], [], [], [], 0⟩

/-- Concrete memory for the copy counterexamples: byte 7 at address 200,
zero everywhere else. -/
def mem1 : Mem := fun a => if a = 200 then 7 else 0

/-- Concrete state holding `mem1`. -/
def st1 : ShimState := ⟨mem1, [], [], [], [], [], 0⟩

/-- Concrete memory for the round-trip counterexample: byte 5 at address 0
(the kernel source buffer), byte 9 at address 32 (the final destination
buffer), zero elsewhere (address 16 is the user-side buffer). -/
def mem3 : Mem := fun a => if a = 0 then 5 else if a = 32 then 9 else 0

/-- Concrete state holding `mem3`. -/
def st3 : ShimState := ⟨mem3, [], [], [], [], [], 0⟩

/-- Concrete memory for the 16-byte copy counterexample: bytes 1 at the
source addresses 100–115, zero at the destination addresses 0–15. -/
def mem4 : Mem := fun a => if 100 ≤ a ∧ a ≤ 115 then 1 else 0

/-- Concrete state holding `mem4`. -/
def st4 : ShimState := ⟨mem4, [], [], [], [], [], 0⟩

/-- Concrete state with one allocated region covering device numbers
240–240 (base 240, count 1), for the overlap counterexample. -/
def st5 : ShimState := ⟨zeroMem, [⟨240, 1, true⟩], [], [], [], [], 0⟩

/-- Claim C1, counterexample. With user address 200 valid and holding one
byte (value 7) and kernel destination 100, `rust_helper_copy_from_user`
over length 1 returns 0 yet leaves the destination byte unequal to the
source byte: the byte is not copied, contradicting the claim that in the
valid case all `length` bytes are actually copied; and since the result is
0 for every call, the invalid case never returns a non-zero remainder
either. -/
theorem c1_counterexample :
    (rust_helper_copy_from_user st1 100 200 1).2 = 0 ∧
      st1.mem 200 = 7 ∧
      (rust_helper_copy_from_user st1 100 200 1).1.mem 100 ≠ st1.mem 200 := by
  refine ⟨rfl, rfl, ?_⟩
  decide

/-- Claim C1, amended: every call to `rust_helper_copy_from_user` or
`rust_helper_copy_to_user` returns remainder 0 and leaves the entire
process state — in particular every byte of memory — unchanged, regardless
of any modelled validity or length of the user-side pointer; no byte is
ever transferred. -/
theorem c1_copy_user_amended (st : ShimState) (to_ from_ n : Nat) :
    rust_helper_copy_from_user st to_ from_ n = (st, 0) ∧
      rust_helper_copy_to_user st to_ from_ n = (st, 0) :=
  ⟨rfl, rfl⟩

/-- Claim C2, counterexample. In the state `st0`, device handle 1 was never
initialized and no region is allocated, yet `cdev_add` returns 0 (success)
and not a negative error value, contradicting the claim that in every case
other than (initialized ∧ region allocated ∧ count within bounds) it
returns a negative error. -/
theorem c2_counterexample :
    1 ∉ st0.initializedDevs ∧ st0.regions = [] ∧
      (cdev_add st0 1 240 1).2 = 0 ∧ ¬ (cdev_add st0 1 240 1).2 < 0 := by
  refine ⟨?_, rfl, rfl, ?_⟩ <;> decide

/-- Claim C2, amended: `cdev_add` returns 0 (success) on every call and
leaves the state unchanged, irrespective of whether the handle was
initialized, whether its target region is allocated, or how `count`
compares to the region's reserved count; it never returns a negative error
value. -/
theorem c2_cdev_add_amended (st : ShimState) (p dev count : Nat) :
    cdev_add st p dev count = (st, 0) :=
  rfl

/-- Claim C3, counterexample. Source buffer at address 0 holds byte 5 and
the final destination at address 32 holds byte 9. `rust_helper_copy_to_user`
(user buffer at 16) followed by `rust_helper_copy_from_user` into address
32 over length 1 both return 0, yet the final destination still holds 9,
not the original source byte 5: the two copies do not compose to the
identity on the transferred bytes because no byte moves at all. -/
theorem c3_counterexample :
    (rust_helper_copy_to_user st3 16 0 1).2 = 0 ∧
      (rust_helper_copy_from_user
        (rust_helper_copy_to_user st3 16 0 1).1 32 16 1).2 = 0 ∧
      st3.mem 0 = 5 ∧
      (rust_helper_copy_from_user
          (rust_helper_copy_to_user st3 16 0 1).1 32 16 1).1.mem 32 ≠
        st3.mem 0 := by
  refine ⟨rfl, rfl, rfl, ?_⟩
  decide

/-- Claim C3, amended: `rust_helper_copy_to_user` immediately followed by
`rust_helper_copy_from_user` over the same length both return remainder 0,
but the composition leaves the whole state — hence the final destination —
exactly as it started: the final destination holds its own original bytes,
not the original source bytes. -/
theorem c3_roundtrip_amended (st : ShimState) (user kin kout n : Nat) :
    (rust_helper_copy_to_user st user kin n).2 = 0 ∧
      (rust_helper_copy_from_user
        (rust_helper_copy_to_user st user kin n).1 kout user n).2 = 0 ∧
      (rust_helper_copy_from_user
        (rust_helper_copy_to_user st user kin n).1 kout user n).1 = st :=
  ⟨rfl, rfl, rfl⟩

/-- Claim C4, counterexample. `rust_helper_copy_to_user` with length 16,
source bytes 1 at addresses 100–115 and destination at address 0, returns
remainder 0 — not 8 — and byte 0 of the destination is left at its original
value 0 rather than being set to the source byte 1: neither the claimed
remainder nor the claimed modification of bytes 0..7 happens. -/
theorem c4_counterexample :
    (rust_helper_copy_to_user st4 0 100 16).2 ≠ 8 ∧
      st4.mem 100 = 1 ∧
      (rust_helper_copy_to_user st4 0 100 16).1.mem 0 ≠ st4.mem 100 := by
  refine ⟨?_, ?_, ?_⟩ <;> decide

/-- Claim C4, amended: `rust_helper_copy_to_user` with length 16 returns
remainder 0 and leaves every byte of the destination (and all other state)
unchanged, whatever validity is modelled for the destination: no byte of
`dst` is modified and no shortfall of 8 is ever reported. -/
theorem c4_copy_to_16_amended (st : ShimState) (to_ from_ : Nat) :
    rust_helper_copy_to_user st to_ from_ 16 = (st, 0) :=
  rfl

/-- Claim C5, counterexample. The state `st5` holds an allocated region
with base 240 and count 1, which overlaps the requested range (base 240,
count 1) in the specification's sense, yet `alloc_chrdev_region` returns 0
rather than a negative RegionConflict result, and it records no new region
either: the allocation neither fails on overlap nor creates a
DeviceRegion. -/
theorem c5_counterexample :
    overlapsRange ⟨240, 1, true⟩ 240 1 = true ∧
      st5.regions = [⟨240, 1, true⟩] ∧
      ¬ (alloc_chrdev_region st5 0 0 1 300).2 < 0 ∧
      (alloc_chrdev_region st5 0 0 1 300).1.regions = st5.regions := by
  refine ⟨?_, rfl, ?_, rfl⟩ <;> decide

/-- Claim C5, amended: `alloc_chrdev_region` returns 0 on every call and
leaves the state unchanged — it creates no DeviceRegion, writes no
identifier through `dev`, performs no overlap check, and never fails with a
RegionConflict, even when an allocated region fully or partially overlaps
the requested range. -/
theorem c5_alloc_chrdev_region_amended
    (st : ShimState) (dev baseminor count name : Nat) :
    alloc_chrdev_region st dev baseminor count name = (st, 0) :=
  rfl

/-- Claim C6, counterexample. Starting from `st0` with no recorded usage
violations, two consecutive `rust_helper_spin_lock` calls on lock 7 with no
intervening `rust_helper_spin_unlock` leave the violation count at 0 and
the whole state untouched: the second acquire silently succeeds and no
detected-deadlock event is flagged. -/
theorem c6_counterexample :
    st0.usageViolations = 0 ∧
      (rust_helper_spin_lock (rust_helper_spin_lock st0 7) 7).usageViolations
          = 0 ∧
      rust_helper_spin_lock (rust_helper_spin_lock st0 7) 7 = st0 :=
  ⟨rfl, rfl, rfl⟩

/-- Claim C6, amended: for every lock instance and every state, a second
`rust_helper_spin_lock` on the same lock without an intervening
`rust_helper_spin_unlock` leaves the state — including the recorded
usage-violation count — exactly unchanged: the double acquire silently
succeeds and is never flagged as a violation or detected deadlock. -/
theorem c6_spin_lock_amended (st : ShimState) (lock : Nat) :
    rust_helper_spin_lock (rust_helper_spin_lock st lock) lock = st ∧
      (rust_helper_spin_lock (rust_helper_spin_lock st lock) lock).usageViolations
          = st.usageViolations :=
  ⟨rfl, rfl⟩

/-- Claim C7, counterexample. `rust_helper_alloc_pages` returns the null
page 0 on every call — there is no mode under which it succeeds — and
`rust_helper_kmap` applied to its result returns 0, the null/invalid
handle: map fails on the allocator's result, contradicting the claim that
in "always succeed" mode map on the result never fails. -/
theorem c7_counterexample :
    (rust_helper_alloc_pages st0 0 0).2 = 0 ∧
      (rust_helper_kmap st0 (rust_helper_alloc_pages st0 0 0).2).2 = 0 :=
  ⟨rfl, rfl⟩

/-- Claim C7, amended: `rust_helper_alloc_pages` returns the null (invalid)
page on every call, consistent only with permanent failure and admitting no
"always succeed" configuration, and `rust_helper_kmap` returns the null
(invalid) handle on every call — in particular when its argument is the
null page or an already-mapped page — so map fails always, never only on
null or already-mapped arguments. -/
theorem c7_page_shim_amended (st : ShimState) (gfp order page : Nat) :
    rust_helper_alloc_pages st gfp order = (st, 0) ∧
      rust_helper_kmap st page = (st, 0) :=
  ⟨rfl, rfl⟩

/-- Claim C8: for every format descriptor and every argument list, of any
count and any mixture of integer and pointer arguments, `printk` returns 0,
a non-negative integer, and does not fail (it is a total function of the
state that also leaves the state unchanged). -/
theorem c8_printk_nonneg (st : ShimState) (fmt : Nat)
    (args : List PrintkArg) :
    (printk st fmt args).2 = 0 ∧ 0 ≤ (printk st fmt args).2 ∧
      (printk st fmt args).1 = st :=
  ⟨rfl, le_refl 0, rfl⟩

/-- Claim C9: every shim operation leaves all caller-visible state
unchanged — no operation writes through any pointer argument or mutates any
process-wide shim state — so after any call sequence every buffer and
handle holds exactly its initial contents. Stated as: each embedded entry
point returns its input state verbatim. -/
theorem c9_frame_preservation (st : ShimState)
    (fmt p q r n : Nat) (args : List PrintkArg) :
    (printk st fmt args).1 = st ∧
      (alloc_chrdev_region st p q r n).1 = st ∧
      unregister_chrdev_region st p r = st ∧
      cdev_init st p q = st ∧
      (cdev_add st p q r).1 = st ∧
      cdev_del st p = st ∧
      (rust_helper_copy_from_user st p q n).1 = st ∧
      (rust_helper_copy_to_user st p q n).1 = st ∧
      rust_helper_init_wait st p = st ∧
      (rust_helper_kmap st p).1 = st ∧
      rust_helper_kunmap st p = st ∧
      (rust_helper_signal_pending st).1 = st ∧
      (rust_helper_alloc_pages st p q).1 = st ∧
      rust_helper_spin_lock_init st p q r = st ∧
      rust_helper_spin_lock st p = st ∧
      rust_helper_spin_unlock st p = st ∧
      (rust_helper_current_pid st).1 = st :=
  ⟨rfl, rfl, rfl, rfl, rfl, rfl, rfl, rfl, rfl, rfl, rfl, rfl, rfl, rfl,
    rfl, rfl, rfl⟩

/-- Claim C10: `rust_helper_signal_pending` and `rust_helper_current_pid`
each return the constant 0 on every call, for every reachable state — hence
independently of any prior shim calls — so no pending signal is ever
observed and the task identity is always the same fixed value 0. -/
theorem c10_constant_zero (st : ShimState) :
    (rust_helper_signal_pending st).2 = 0 ∧
      (rust_helper_current_pid st).2 = 0 :=
  ⟨rfl, rfl⟩
